import Mathlib

/-!
Verification of the OdooUpgrader upgrade-orchestration engine.

This file shallowly embeds the parts of the Python code base relevant to the
checked properties:

* `core.py` — the orchestrator (`OdooUpgrader.run` upgrade loop,
  `get_version_info`, `generate_next_version`);
* `services/state.py` — `StateService.initialize` and resume validation;
* `services/upgrade_step.py` — failure classification and the retry loop of
  `run_upgrade_step`;
* `services/database.py` — `_create_sql_compat_dump` and
  `_restore_sql_dump_with_compat`;
* `services/archive.py` — `safe_extract_zip`;
* `services/download.py` — `download_file`;
* `services/command_runner.py` — `CommandRunner.run`.

External effects (subprocess results, HTTP transfers, the probe of the
database version) are modelled as explicit inputs (oracles) consumed by the
embedded control flow.  Python strings are Lean `String`s, file contents are
lists of lines or byte lists, and machine integers are `Int`/`Nat`.
-/

namespace OdooUpgrader

/-! ### Python string primitives

`pyIsSpace` models the character class used by Python's `str.strip()` and by
`\s` in the regular expressions of the source (ASCII whitespace).  `pyStrip`
models `str.strip()`, `pyLower` models `str.lower()` (ASCII case folding, the
only case folding the matched patterns need). -/

def pyIsSpace (c : Char) : Bool :=
  c = ' ' || c = '\t' || c = '\n' || c = '\r' || c = '\x0b' || c = '\x0c'

def pyStripList (cs : List Char) : List Char :=
  ((cs.dropWhile pyIsSpace).reverse.dropWhile pyIsSpace).reverse

def pyStrip (s : String) : String :=
  ⟨pyStripList s.data⟩

def pyLower (s : String) : String :=
  ⟨s.data.map Char.toLower⟩

/-- `listStartsWith needle hay` : `needle` is a leading block of `hay`
(models Python substring matching anchored at the start). -/
def listStartsWith : List Char → List Char → Bool
  | [], _ => true
  | _ :: _, [] => false
  | a :: as, b :: bs => a = b && listStartsWith as bs

/-- `listHasSub needle hay` : `needle` occurs contiguously inside `hay`
(models the Python `needle in hay` substring test). -/
def listHasSub (needle : List Char) : List Char → Bool
  | [] => needle.isEmpty
  | b :: bs => listStartsWith needle (b :: bs) || listHasSub needle bs

/-- Python `needle in hay` on strings. -/
def containsSub (hay needle : String) : Bool :=
  listHasSub needle.data hay.data

/-- Splitting a character list on a separator character; `acc` holds the
current field reversed.  Models Python `str.split(sep)` for one-character
separators (so `""` splits to `[""]`). -/
def splitOnCharAux (sep : Char) : List Char → List Char → List (List Char)
  | [], acc => [acc.reverse]
  | c :: cs, acc =>
    if c = sep then acc.reverse :: splitOnCharAux sep cs []
    else splitOnCharAux sep cs (c :: acc)

/-- Python `s.split(".")`. -/
def pySplitDot (s : String) : List String :=
  (splitOnCharAux '.' s.data []).map (fun l => ⟨l⟩)

/-! ### Version values (`packaging.version` as used by `core.py`)

`core.py` calls `packaging.version.parse` only on dotted numeric release
strings (the strings stored in `ir_module_module.latest_version` and the
literals `"10.0"`, `"0.0"`, target versions).  `parsePyVersion` models the
parser on that fragment: a dotted sequence of decimal numerals; anything else
fails (models the `InvalidVersion` exception).  `releaseLt` models PEP 440
comparison of release tuples (component-wise with zero padding). -/

def parseNatDigits (cs : List Char) : Option Nat :=
  if cs.isEmpty then none
  else if cs.all Char.isDigit then
    some (cs.foldl (fun acc c => acc * 10 + (c.toNat - '0'.toNat)) 0)
  else none

structure PyVersion where
  release : List Nat
deriving DecidableEq, Repr

def PyVersion.major (v : PyVersion) : Nat :=
  v.release.headD 0

def parsePyVersion (s : String) : Option PyVersion :=
  let parts := (pySplitDot s).map (fun p => parseNatDigits p.data)
  if parts.all Option.isSome then
    some ⟨parts.map (fun p => p.getD 0)⟩
  else none

def padReleaseTo (n : Nat) (l : List Nat) : List Nat :=
  l ++ List.replicate (n - l.length) 0

def lexLtNat : List Nat → List Nat → Bool
  | [], _ => false
  | _ :: _, [] => false
  | x :: xs, y :: ys =>
    if x < y then true else if y < x then false else lexLtNat xs ys

def releaseLt (a b : List Nat) : Bool :=
  let n := max a.length b.length
  lexLtNat (padReleaseTo n a) (padReleaseTo n b)

def pyVersionLt (a b : PyVersion) : Bool :=
  releaseLt a.release b.release

/-- `OdooUpgrader.get_version_info` (`core.py:750-754`): parse the stripped
string; on any parse failure return `version.parse("0.0")`. -/
def get_version_info (verStr : String) : PyVersion :=
  match parsePyVersion (pyStrip verStr) with
  | some v => v
  | none => ⟨[0, 0]⟩

/-- `int(text)` on the first dot-component, as in
`generate_next_version` (`core.py:756-762`).  Python `int` strips whitespace;
the version strings fed here carry plain decimal components. -/
def pyParseIntComponent (s : String) : Option Nat :=
  parseNatDigits (pyStrip s).data

/-- `OdooUpgrader.generate_next_version` (`core.py:756-762`): take the integer
before the first dot and add one; on failure fall back to
`version.parse(current).major + 1`; if that parse also fails the exception
escapes (`none`). -/
def generate_next_version (current : String) : Option String :=
  match pyParseIntComponent ((pySplitDot current).headD "") with
  | some major => some (toString (major + 1) ++ ".0")
  | none =>
    match parsePyVersion current with
    | some v => some (toString (v.major + 1) ++ ".0")
    | none => none

/-- `OdooUpgrader.VALID_VERSIONS` (`core.py:60`). -/
def VALID_VERSIONS : List String :=
  ["10.0", "11.0", "12.0", "13.0", "14.0", "15.0", "16.0", "17.0", "18.0"]

/-! ### The upgrade loop (`OdooUpgrader.run`, `core.py:1046-1098`)

Each iteration that reaches the migration step consumes one `StepEvent` from
the environment: whether `run_upgrade_step` returned `True`, and the version
string the subsequent `get_current_version` probe reports. -/

structure StepEvent where
  stepOk : Bool
  probe : String
deriving DecidableEq, Repr

inductive LoopOutcome where
  | success (observed : List Nat)
  | loopDetected
  | noSupportedStep
  | stepFailed
  | emptyProbe
  | noProgress
  | parseCrash
  | outOfEvents
deriving DecidableEq, Repr

/-- The `while True` upgrade loop of `OdooUpgrader.run`.  `seen` is the
`seen_majors` set (most recently added first); on success the result carries
the majors observed at the loop head in chronological order. -/
def upgradeLoop (targetMajor : Nat) (events : List StepEvent) (curStr : String)
    (seen : List Nat) : LoopOutcome :=
  let m := (get_version_info curStr).major
  if m ∈ seen then .loopDetected
  else if m = targetMajor then .success ((m :: seen).reverse)
  else if targetMajor < m then .success ((m :: seen).reverse)
  else
    match generate_next_version curStr with
    | none => .parseCrash
    | some nextStr =>
      if nextStr ∈ VALID_VERSIONS then
        match events with
        | [] => .outOfEvents
        | e :: rest =>
          if e.stepOk then
            if e.probe = "" then .emptyProbe
            else if (get_version_info e.probe).major ≤ m then .noProgress
            else upgradeLoop targetMajor rest e.probe (m :: seen)
          else .stepFailed
      else .noSupportedStep
termination_by structural events

/-- The minimum-version gate of `OdooUpgrader.run` (`core.py:1041-1044`):
`current_ver < min_ver` with `min_ver = get_version_info("10.0")`. -/
def belowMinimumSupported (v : PyVersion) : Bool :=
  pyVersionLt v (get_version_info "10.0")



/-! ### State service (`services/state.py`)

`StateService.initialize` and `_validate_resume_compatibility`.  The state
document is reduced to the fields the resume logic reads; metadata values are
`Option String` (a missing key and an explicit `None` both read back as
`None` through `dict.get`). -/

structure ResumeMetadata where
  source : Option String
  target_version : Option String
  extra_addons : Option String
  source_sha256 : Option String
  extra_addons_sha256 : Option String
deriving DecidableEq, Repr

structure PersistedState where
  status : String
  metadata : ResumeMetadata
  completedSteps : List String
deriving DecidableEq, Repr

/-- `StateService._validate_resume_compatibility` (`state.py:134-152`): the
five compared keys in source order; mismatching keys are collected. -/
def metadataMismatches (existing current : ResumeMetadata) : List String :=
  (if existing.source ≠ current.source then ["source"] else []) ++
    (if existing.target_version ≠ current.target_version then ["target_version"] else []) ++
    (if existing.extra_addons ≠ current.extra_addons then ["extra_addons"] else []) ++
    (if existing.source_sha256 ≠ current.source_sha256 then ["source_sha256"] else []) ++
    (if existing.extra_addons_sha256 ≠ current.extra_addons_sha256
      then ["extra_addons_sha256"] else [])

def RESUME_CONFLICT_TEXT : String :=
  "Cannot resume run with different inputs. "

/-- The raise of `_validate_resume_compatibility`: `some msg` models the
`UpgraderError` raised when the mismatch list is nonempty. -/
def validateResumeCompatibility (existing current : ResumeMetadata) : Option String :=
  let mismatches := metadataMismatches existing current
  if mismatches.isEmpty then none
  else
    some (RESUME_CONFLICT_TEXT ++
      ("Mismatched fields: " ++ String.intercalate ", " mismatches ++ "."))

inductive InitializeResult where
  | resumed (state : PersistedState)
  | fresh (state : PersistedState)
  | failure (msg : String)
deriving DecidableEq, Repr

/-- `StateService.initialize` (`state.py:56-83`): with `resume` set and an
existing state file, validate compatibility and return the existing state;
otherwise write and return a fresh `running` state. -/
def stateInitialize (existingState : Option PersistedState) (metadata : ResumeMetadata)
    (resume : Bool) : InitializeResult :=
  match existingState, resume with
  | some st, true =>
    match validateResumeCompatibility st.metadata metadata with
    | some msg => .failure msg
    | none => .resumed st
  | _, _ => .fresh ⟨"running", metadata, []⟩


/-! ### Command runner (`services/command_runner.py`)

`CommandRunner.run` with the attempt outcomes supplied as an oracle list
(one entry per `subprocess.run` invocation).  `sleeps` records the backoff
sleeps performed between attempts. -/

structure CompletedProc where
  returncode : Int
  stdout : String
  stderr : String
deriving DecidableEq, Repr

inductive CmdAttempt where
  | fileNotFound
  | timedOut
  | execFailure (msg : String)
  | completed (returncode : Int) (stdout stderr : String)
deriving DecidableEq, Repr

inductive CmdResult where
  | ok (proc : CompletedProc)
  | failure (msg : String)
deriving DecidableEq, Repr

structure CmdRunTrace where
  result : CmdResult
  sleeps : List ℚ
deriving DecidableEq, Repr

/-- The failure message of `CommandRunner.run` (`command_runner.py:69-72`):
command line, exit code and, when output is captured, the trimmed stderr. -/
def cmdFailMessage (cmdStr : String) (returncode : Int) (stderrTrimmed : String) : String :=
  let base := "Command failed (" ++ toString returncode ++ "): " ++ cmdStr
  if stderrTrimmed ≠ "" then base ++ "\n" ++ stderrTrimmed else base

/-- `CommandRunner.run` (`command_runner.py:17-94`): the attempt loop.
`maxAttempts = max(1, retry_count + 1)`; a non-zero exit retries while
attempts remain and `retry_on_returncodes` is empty or contains the code,
sleeping `retry_backoff_seconds` between attempts; a final non-zero exit
raises when `check` is set and otherwise returns the completed process. -/
def commandRun (cmd : List String) (check captureOutput : Bool) (retryCodes : List Int)
    (backoff : ℚ) (timeoutDesc : String) (maxAttempts attempt : Nat)
    (outcomes : List CmdAttempt) (sleeps : List ℚ) : CmdRunTrace :=
  match outcomes with
  | [] => ⟨.failure ("Command failed after retries: " ++ String.intercalate " " cmd), sleeps⟩
  | o :: rest =>
    match o with
    | .fileNotFound =>
      ⟨.failure ("Required command not found: " ++ cmd.headD "" ++
        ". Please install it and try again."), sleeps⟩
    | .timedOut =>
      if attempt < maxAttempts then
        commandRun cmd check captureOutput retryCodes backoff timeoutDesc maxAttempts
          (attempt + 1) rest (sleeps ++ [backoff])
      else
        ⟨.failure ("Command timed out after " ++ timeoutDesc ++ "s: " ++
          String.intercalate " " cmd), sleeps⟩
    | .execFailure emsg =>
      ⟨.failure ("Failed to execute command: " ++ String.intercalate " " cmd ++ ". " ++ emsg),
        sleeps⟩
    | .completed returncode stdout stderr =>
      if returncode = 0 then ⟨.ok ⟨returncode, stdout, stderr⟩, sleeps⟩
      else
        let stderrTrimmed := if captureOutput then pyStrip stderr else ""
        if attempt < maxAttempts ∧ (retryCodes = [] ∨ returncode ∈ retryCodes) then
          commandRun cmd check captureOutput retryCodes backoff timeoutDesc maxAttempts
            (attempt + 1) rest (sleeps ++ [backoff])
        else if check then
          ⟨.failure (cmdFailMessage (String.intercalate " " cmd) returncode stderrTrimmed), sleeps⟩
        else ⟨.ok ⟨returncode, stdout, stderr⟩, sleeps⟩
termination_by structural outcomes


/-! ### Download service (`services/download.py`)

`DownloadService.download_file` with the HTTP transport as an oracle.  Bytes
are `List Nat`; the SHA-256 digest is an abstract function `hashFn` from byte
streams to hex strings — `hashlib`'s incremental `update`/`hexdigest` over the
written chunks equals the digest of their concatenation, which is how the
model applies `hashFn`. -/

structure DownloadOutcome where
  destContent : Option (List Nat)
  errorMsg : Option String
deriving DecidableEq, Repr

/-- The streaming body of `download_file` (`download.py:40-78`): empty chunks
are skipped (`if not chunk: continue`); with an expected checksum a mismatch
removes the destination file and fails. -/
def downloadFileStream (hashFn : List Nat → String) (description : String)
    (chunks : List (List Nat)) (expectedSha256 : Option String) : DownloadOutcome :=
  let written := (chunks.filter (fun c => c ≠ [])).flatten
  match expectedSha256 with
  | none => ⟨some written, none⟩
  | some expected =>
    let downloadedSha := hashFn written
    if downloadedSha ≠ expected then
      ⟨none, some ("Checksum mismatch for " ++ description ++ ". Expected " ++ expected ++
        ", but got " ++ downloadedSha ++ ".")⟩
    else ⟨some written, none⟩

inductive TransferOutcome where
  | requestFailure (msg : String)
  | streamed (chunks : List (List Nat))
deriving DecidableEq, Repr

/-- `download_file` (`download.py:30-81`) including transport: the code calls
`requests.get` exactly once, with no retry loop around it, so only the head
of `transfers` is consumed; the second component counts transfer attempts. -/
def downloadFile (hashFn : List Nat → String) (description : String)
    (transfers : List TransferOutcome) (expectedSha256 : Option String) :
    DownloadOutcome × Nat :=
  match transfers with
  | [] => (⟨none, some ("Download failed for " ++ description ++ ": no response")⟩, 0)
  | .requestFailure msg :: _ =>
    (⟨none, some ("Download failed for " ++ description ++ ": " ++ msg)⟩, 1)
  | .streamed chunks :: _ =>
    (downloadFileStream hashFn description chunks expectedSha256, 1)


/-! ### Archive service (`services/archive.py`, mirrored by `core.py:242-276`)

`safe_extract_zip`.  Absolute filesystem paths are component lists;
`resolveUnder` models `(base / normalized_name).resolve()` lexically, which
matches `Path.resolve` on a destination directory that holds no symbolic
links (nothing has been extracted yet when the audit runs).  A leading `/` in
the entry name discards `base`, as `pathlib`'s `/` operator does. -/

structure ZipEntry where
  filename : String
  externalAttr : Nat
deriving DecidableEq, Repr

def normalizeName (s : String) : String :=
  ⟨s.data.map (fun c => if c = '\\' then '/' else c)⟩

def splitSlash (s : String) : List String :=
  (splitOnCharAux '/' s.data []).map (fun l => ⟨l⟩)

def resolvePathComps (start : List String) (comps : List String) : List String :=
  comps.foldl
    (fun acc comp =>
      if comp = "" ∨ comp = "." then acc
      else if comp = ".." then acc.dropLast
      else acc ++ [comp])
    start

def resolveUnder (base : List String) (name : String) : List String :=
  let normalized := normalizeName name
  match normalized.data with
  | '/' :: _ => resolvePathComps [] (splitSlash normalized)
  | _ => resolvePathComps base (splitSlash normalized)

def startsWithComps : List String → List String → Bool
  | [], _ => true
  | _ :: _, [] => false
  | a :: as, b :: bs => a = b && startsWithComps as bs

/-- `is_within_dir` (`archive.py:14-18`): `os.path.commonpath([base, cand]) ==
base`, i.e. the base components lead the candidate components. -/
def isWithinDir (base cand : List String) : Bool :=
  startsWithComps base cand

/-- `(member.external_attr >> 16) & 0o170000 == 0o120000` (`archive.py:35-36`). -/
def isSymlinkEntry (e : ZipEntry) : Bool :=
  ((e.externalAttr >>> 16) &&& 0o170000) = 0o120000

def isDirEntryName (normalized : String) : Bool :=
  match normalized.data.getLast? with
  | some '/' => true
  | _ => false

inductive FsAction where
  | mkdirTree (path : List String)
  | writeFile (path : List String)
deriving DecidableEq, Repr

/-- The extraction pass (`archive.py:41-51`) as filesystem actions: directory
entries make their tree; file entries make the parent tree then stream the
file. -/
def extractEntryActions (base : List String) (e : ZipEntry) : List FsAction :=
  let normalized := normalizeName e.filename
  let target := resolveUnder base e.filename
  if isDirEntryName normalized then [.mkdirTree target]
  else [.mkdirTree target.dropLast, .writeFile target]

/-- The audit pass (`archive.py:25-39`): the first offending entry raises;
traversal is checked before the symlink bit, per entry, in order. -/
def auditEntries (base : List String) : List ZipEntry → Option String
  | [] => none
  | e :: rest =>
    if ¬isWithinDir base (resolveUnder base e.filename) then
      some ("Unsafe ZIP entry detected: `" ++ e.filename ++
        "`. Archive extraction aborted to prevent path traversal.")
    else if isSymlinkEntry e then
      some ("Unsafe ZIP entry detected: `" ++ e.filename ++ "` is a symbolic link.")
    else auditEntries base rest

/-- `safe_extract_zip` (`archive.py:20-53`): the audit pass runs to completion
before any extraction action; an audit failure yields the error and an empty
action list (nothing written). -/
def safeExtractZip (base : List String) (entries : List ZipEntry) :
    Option String × List FsAction :=
  match auditEntries base entries with
  | some msg => (some msg, [])
  | none => (none, (entries.map (extractEntryActions base)).flatten)


/-! ### Migration step service (`services/upgrade_step.py`)

`UpgradeStepService`: the transient/fatal pattern policy
(`upgrade_step.py:19-42`), the failure classifier, the evidence assembly, and
the attempt loop of `run_upgrade_step`, with each attempt's observable outcome
supplied by the environment. -/

def TRANSIENT_FAILURE_PATTERNS : List String :=
  ["connection reset", "temporary failure", "name resolution", "timed out", "timeout",
    "network is unreachable", "no route to host", "service unavailable",
    "context deadline exceeded", "i/o timeout", "unexpected eof", "tls handshake timeout",
    "too many requests", "429"]

def NON_RETRYABLE_FAILURE_PATTERNS : List String :=
  ["invalid manifest", "invalid version", "odoo.tools.convert.parseerror",
    "psycopg2.errors.", "duplicate table", "already exists"]

/-- `_is_transient_failure` (`upgrade_step.py:128-136`): lowercase the
evidence; whitespace-only evidence is not transient; any fatal pattern vetoes;
otherwise any transient pattern qualifies. -/
def isTransientFailure (evidence : String) : Bool :=
  let text := pyLower evidence
  if pyStrip text = "" then false
  else if NON_RETRYABLE_FAILURE_PATTERNS.any (fun p => containsSub text p) then false
  else TRANSIENT_FAILURE_PATTERNS.any (fun p => containsSub text p)

/-- Evidence assembly (`upgrade_step.py:375-377`): the bounded 40-line output
tail joined with newlines, with the odoo.log delta (read from the attempt's
start offset) appended when nonempty. -/
def stepEvidence (tailLines : List String) (logDelta : String) : String :=
  let evidence := String.intercalate "\n" tailLines
  if logDelta ≠ "" then
    (if evidence ≠ "" then evidence ++ "\n" ++ logDelta else logDelta)
  else evidence

/-- Observable outcome of one `compose up` attempt: stream timeout, non-zero
exit of the compose process (with the kept tail and log delta), inspect
failure or unparsable exit code, or an inspected container exit code. -/
inductive AttemptResult where
  | timedOut
  | exitNonZero (tailLines : List String) (logDelta : String)
  | inspectFailed
  | inspectUnparsable
  | inspected (exitCode : Int)
deriving DecidableEq, Repr

/-- The attempt loop of `run_upgrade_step` (`upgrade_step.py:265-436`): on a
non-zero compose exit the step retries exactly when attempts remain and the
evidence classifies transient (`upgrade_step.py:379-386`); the other outcomes
retry while attempts remain; attempt exhaustion returns failure. -/
def runStepAttempts (maxAttempts attempt : Nat) (results : List AttemptResult) : Bool :=
  match results with
  | [] => false
  | r :: rest =>
    match r with
    | .timedOut =>
      if attempt = maxAttempts then false
      else runStepAttempts maxAttempts (attempt + 1) rest
    | .exitNonZero tailLines logDelta =>
      if attempt < maxAttempts ∧ isTransientFailure (stepEvidence tailLines logDelta) = true then
        runStepAttempts maxAttempts (attempt + 1) rest
      else false
    | .inspectFailed =>
      if attempt = maxAttempts then false
      else runStepAttempts maxAttempts (attempt + 1) rest
    | .inspectUnparsable =>
      if attempt = maxAttempts then false
      else runStepAttempts maxAttempts (attempt + 1) rest
    | .inspected exitCode =>
      if exitCode = 0 then true
      else if attempt = maxAttempts then false
      else runStepAttempts maxAttempts (attempt + 1) rest
termination_by structural results


/-! ### Database service (`services/database.py`)

`_create_sql_compat_dump` and its two line matchers
(`_line_sets_parameter`, `_line_calls_set_config_parameter`,
`database.py:41-85`).  The regular expressions are embedded as explicit
matchers; greedy whitespace consumption is equivalent to the regex
backtracking here because the parameter names handled start and end with
non-whitespace characters.  `re.IGNORECASE` is ASCII case folding on these
patterns. -/

def dropWs (cs : List Char) : List Char :=
  cs.dropWhile pyIsSpace

def stripLitCI : List Char → List Char → Option (List Char)
  | [], rest => some rest
  | _ :: _, [] => none
  | p :: ps, c :: rest =>
    if p.toLower = c.toLower then stripLitCI ps rest else none

def afterWsPlus : List Char → Option (List Char)
  | [] => none
  | c :: rest => if pyIsSpace c then some (dropWs rest) else none

/-- `_line_sets_parameter` (`database.py:41-44`): `re.match` of
`^\s*SET\s+<param>\s*=`, case-insensitive. -/
def lineSetsParameter (line parameter : String) : Bool :=
  match stripLitCI "SET".data (dropWs line.data) with
  | none => false
  | some r1 =>
    match afterWsPlus r1 with
    | none => false
    | some r2 =>
      match stripLitCI parameter.data r2 with
      | none => false
      | some r3 =>
        match dropWs r3 with
        | '=' :: _ => true
        | _ => false

/-- `_line_calls_set_config_parameter` (`database.py:46-49`): `re.match` of
the `SELECT pg_catalog.set_config(` form, case-insensitive. -/
def lineCallsSetConfigParameter (line parameter : String) : Bool :=
  match stripLitCI "SELECT".data (dropWs line.data) with
  | none => false
  | some r1 =>
    match afterWsPlus r1 with
    | none => false
    | some r2 =>
      match stripLitCI "pg_catalog.set_config(".data r2 with
      | none => false
      | some r3 =>
        match dropWs r3 with
        | '\'' :: r4 =>
          match stripLitCI parameter.data r4 with
          | none => false
          | some r5 =>
            match r5 with
            | '\'' :: r6 =>
              match dropWs r6 with
              | ',' :: _ => true
              | _ => false
            | _ => false
        | _ => false

/-- The skip predicate of the copy loop (`database.py:62-67`). -/
def shouldSkipLine (line : String) (paramsSet : List String) : Bool :=
  paramsSet.any (fun p => lineSetsParameter line p || lineCallsSetConfigParameter line p)

/-- Python `sorted` on strings (code-point order, modelled via `Ord String`),
used for the messages listing parameter names. -/
def insertSorted (x : String) : List String → List String
  | [] => [x]
  | y :: ys => if compare x y = .gt then y :: insertSorted x ys else x :: y :: ys

def sortStrings (l : List String) : List String :=
  l.foldr insertSorted []

/-- First-occurrence deduplication, as the accumulation loop of
`_extract_unsupported_parameters` (`database.py:35-39`). -/
def dedupKeepOrder (l : List String) : List String :=
  l.foldl (fun acc p => if p ∈ acc then acc else acc ++ [p]) []

def pySortedSet (l : List String) : List String :=
  sortStrings (dedupKeepOrder l)

inductive CompatDumpResult where
  | ok (lines : List String)
  | failure (msg : String)
deriving DecidableEq, Repr

/-- `_create_sql_compat_dump` (`database.py:51-85`) over the dump as a list
of lines: strip the parameters, drop empty ones (the set comprehension), fail
when none remain; copy all lines except the matching ones; fail when nothing
was removed. -/
def createSqlCompatDump (lines : List String) (unsupportedParams : List String) :
    CompatDumpResult :=
  let paramsSet := (unsupportedParams.map pyStrip).filter (fun p => p ≠ "")
  if paramsSet.isEmpty then
    .failure "Could not build SQL compatibility dump: no unsupported params."
  else
    let removedLines := lines.countP (fun l => shouldSkipLine l paramsSet)
    if removedLines = 0 then
      .failure ("Could not build SQL compatibility dump automatically because no matching " ++
        "SET statements were found for: " ++
        String.intercalate ", " (pySortedSet paramsSet) ++ ".")
    else .ok (lines.filter (fun l => ¬shouldSkipLine l paramsSet))



/-! ### Compat restore loop (`database.py:29-39, 87-158`)

`_extract_unsupported_parameters` (an executable embedding of `re.findall` of
`unrecognized configuration parameter\s+"([^"]+)"`, case-insensitive,
scanning left to right without overlap) and `_restore_sql_dump_with_compat`,
with the per-pass `psql` results supplied as an oracle.  A `RestoreTrace`
records the outcome, the `(stderr, parameters)` pair of every compatibility
dump generated, and the number of restore executions. -/

def matchUnsupportedAt (cs : List Char) : Option (String × List Char) :=
  match stripLitCI "unrecognized configuration parameter".data cs with
  | none => none
  | some r1 =>
    match afterWsPlus r1 with
    | none => none
    | some r2 =>
      match r2 with
      | '"' :: r3 =>
        match r3.takeWhile (fun c => c ≠ '"'), r3.dropWhile (fun c => c ≠ '"') with
        | [], _ => none
        | c :: cs', '"' :: r4 => some (⟨c :: cs'⟩, r4)
        | _, _ => none
      | _ => none

/-- The findall scan: at each position try a match (continuing after its
end), otherwise advance one character; fuel is the input length. -/
def extractScan : Nat → List Char → List String
  | 0, _ => []
  | _, [] => []
  | fuel + 1, cs =>
    match matchUnsupportedAt cs with
    | some (p, rest) => p :: extractScan fuel rest
    | none => extractScan fuel cs.tail

/-- `_extract_unsupported_parameters` (`database.py:29-39`): scan, then
first-occurrence dedup. -/
def extractUnsupportedParameters (stderrOutput : String) : List String :=
  dedupKeepOrder (extractScan (stderrOutput.data.length + 1) stderrOutput.data)

structure PsqlResult where
  returncode : Int
  stderr : String
deriving DecidableEq, Repr

inductive RestoreOutcome where
  | ok
  | compatError (msg : String)
  | failed (msg : String)
  | oracleExhausted
deriving DecidableEq, Repr

structure RestoreTrace where
  outcome : RestoreOutcome
  compatPasses : List (String × List String)
  psqlRuns : Nat
deriving DecidableEq, Repr

def SQL_COMPAT_MAX_PASSES : Nat := 5

def POSTGRES_SUGGESTION : String :=
  ". Try using a newer --postgres-version or regenerate the dump with a " ++
    "pg_dump version closer to your restore PostgreSQL version."

/-- The failure message of `_restore_sql_dump_with_compat`
(`database.py:142-158`): the reconstructed command error, the stderr when
present, and — when unsupported parameters were detected — the sorted
parameter list with the engine-version suggestion. -/
def mkRestoreFailMessage (command : String) (returncode : Int) (stderrOutput : String)
    (unsupported : List String) : String :=
  let base := "Command failed (" ++ toString returncode ++ "): " ++ command
  let withStderr := if stderrOutput ≠ "" then base ++ "\n" ++ stderrOutput else base
  if unsupported ≠ [] then
    withStderr ++ "\nDetected unsupported PostgreSQL settings in SQL dump: " ++
      String.intercalate ", " (pySortedSet unsupported) ++ POSTGRES_SUGGESTION
  else withStderr

/-- `_restore_sql_dump_with_compat` (`database.py:87-158`): up to
`SQL_COMPAT_MAX_PASSES` passes; a failing pass whose stderr reveals
parameters not yet attempted (and with passes remaining) generates a
compatibility dump from the current dump and retries with the attempted set
grown; otherwise the loop raises the enriched command error. -/
def restoreSqlLoop (command : String) (passNumber : Nat) (results : List PsqlResult)
    (lines : List String) (attempted : List String) : RestoreTrace :=
  match results with
  | [] => ⟨.oracleExhausted, [], 0⟩
  | r :: rest =>
    if r.returncode = 0 then ⟨.ok, [], 1⟩
    else
      let stderrOutput := pyStrip r.stderr
      let unsupported := extractUnsupportedParameters stderrOutput
      let newUnsupported := unsupported.filter (fun p => p ∉ attempted)
      if newUnsupported ≠ [] ∧ passNumber < SQL_COMPAT_MAX_PASSES then
        match createSqlCompatDump lines newUnsupported with
        | .failure m => ⟨.compatError m, [], 1⟩
        | .ok newLines =>
          let t := restoreSqlLoop command (passNumber + 1) rest newLines
            (attempted ++ newUnsupported)
          ⟨t.outcome, (stderrOutput, newUnsupported) :: t.compatPasses, t.psqlRuns + 1⟩
      else
        ⟨.failed (mkRestoreFailMessage command r.returncode stderrOutput unsupported), [], 1⟩
termination_by structural results

/-- Entry point: pass numbering starts at 1 with nothing attempted. -/
def restoreSqlDumpWithCompat (command : String) (results : List PsqlResult)
    (lines : List String) : RestoreTrace :=
  restoreSqlLoop command 1 results lines []

/-! ## Theorems -/

/-- Invariant of the upgrade loop: if `seen` is strictly decreasing and every
entry is below the major at the loop head, a successful run yields a strictly
increasing observation list ending at or above the target major. -/
theorem upgradeLoop_success_aux (targetMajor : Nat) :
    ∀ (events : List StepEvent) (curStr : String) (seen obs : List Nat),
      (∀ x ∈ seen, x < (get_version_info curStr).major) →
      List.Chain' (fun a b => b < a) seen →
      upgradeLoop targetMajor events curStr seen = .success obs →
      List.Chain' (fun a b => a < b) obs ∧
        ∃ lastMajor, obs.getLast? = some lastMajor ∧ targetMajor ≤ lastMajor := by
  intro events
  induction events with
  | nil =>
    intro curStr seen obs hlt hchain hrun
    rw [upgradeLoop] at hrun
    split at hrun
    · exact absurd hrun (by simp)
    · split at hrun
      · injection hrun with hobs
        subst hobs
        refine ⟨?_, ?_⟩
        · rw [List.chain'_reverse, List.chain'_cons']
          exact ⟨fun y hy => hlt y (List.mem_of_mem_head? hy), hchain⟩
        · refine ⟨(get_version_info curStr).major, ?_, ?_⟩
          · rw [List.getLast?_reverse]
            rfl
          · omega
      · split at hrun
        · injection hrun with hobs
          subst hobs
          refine ⟨?_, ?_⟩
          · rw [List.chain'_reverse, List.chain'_cons']
            exact ⟨fun y hy => hlt y (List.mem_of_mem_head? hy), hchain⟩
          · refine ⟨(get_version_info curStr).major, ?_, ?_⟩
            · rw [List.getLast?_reverse]
              rfl
            · omega
        · split at hrun
          · exact absurd hrun (by simp)
          · split at hrun
            · exact absurd hrun (by simp)
            · exact absurd hrun (by simp)
  | cons e rest ih =>
    intro curStr seen obs hlt hchain hrun
    rw [upgradeLoop] at hrun
    split at hrun
    · exact absurd hrun (by simp)
    · split at hrun
      · injection hrun with hobs
        subst hobs
        refine ⟨?_, ?_⟩
        · rw [List.chain'_reverse, List.chain'_cons']
          exact ⟨fun y hy => hlt y (List.mem_of_mem_head? hy), hchain⟩
        · refine ⟨(get_version_info curStr).major, ?_, ?_⟩
          · rw [List.getLast?_reverse]
            rfl
          · omega
      · split at hrun
        · injection hrun with hobs
          subst hobs
          refine ⟨?_, ?_⟩
          · rw [List.chain'_reverse, List.chain'_cons']
            exact ⟨fun y hy => hlt y (List.mem_of_mem_head? hy), hchain⟩
          · refine ⟨(get_version_info curStr).major, ?_, ?_⟩
            · rw [List.getLast?_reverse]
              rfl
            · omega
        · split at hrun
          · exact absurd hrun (by simp)
          · split at hrun
            · split at hrun
              · split at hrun
                · exact absurd hrun (by simp)
                · split at hrun
                  · exact absurd hrun (by simp)
                  · rename_i hmem htgt hgt hval hok hprobe hle
                    refine ih e.probe ((get_version_info curStr).major :: seen) obs ?_ ?_ hrun
                    · intro x hx
                      rcases List.mem_cons.mp hx with hx | hx
                      · omega
                      · have := hlt x hx
                        omega
                    · rw [List.chain'_cons']
                      exact ⟨fun y hy => hlt y (List.mem_of_mem_head? hy), hchain⟩
              · exact absurd hrun (by simp)
            · exact absurd hrun (by simp)

/-- C1 (`OdooUpgrader.run`, `core.py:1046-1098`): (1) a run of the upgrade
loop that terminates successfully observes a strictly increasing sequence of
majors at the loop head whose last element reaches (or exceeds) the target
major; (2) re-observing a major already in `seen_majors` at the loop head
aborts with the loop-detected error; (3) when the major probed after a
migration step is not strictly greater than the major before the step, the
run aborts with the no-progress error. -/
theorem run_upgrade_loop_progress :
    (∀ (targetMajor : Nat) (events : List StepEvent) (curStr : String) (obs : List Nat),
        upgradeLoop targetMajor events curStr [] = .success obs →
        List.Chain' (fun a b => a < b) obs ∧
          ∃ lastMajor, obs.getLast? = some lastMajor ∧ targetMajor ≤ lastMajor) ∧
    (∀ (targetMajor : Nat) (events : List StepEvent) (curStr : String) (seen : List Nat),
        (get_version_info curStr).major ∈ seen →
        upgradeLoop targetMajor events curStr seen = .loopDetected) ∧
    (∀ (targetMajor : Nat) (e : StepEvent) (rest : List StepEvent) (curStr : String)
        (seen : List Nat) (nextStr : String),
        (get_version_info curStr).major ∉ seen →
        (get_version_info curStr).major < targetMajor →
        generate_next_version curStr = some nextStr →
        nextStr ∈ VALID_VERSIONS →
        e.stepOk = true →
        e.probe ≠ "" →
        (get_version_info e.probe).major ≤ (get_version_info curStr).major →
        upgradeLoop targetMajor (e :: rest) curStr seen = .noProgress) := by
  refine ⟨?_, ?_, ?_⟩
  · intro targetMajor events curStr obs hrun
    exact upgradeLoop_success_aux targetMajor events curStr [] obs (by simp) (by simp) hrun
  · intro targetMajor events curStr seen hmem
    cases events with
    | nil => rw [upgradeLoop]; simp [hmem]
    | cons e rest => rw [upgradeLoop]; simp [hmem]
  · intro targetMajor e rest curStr seen nextStr hmem hlt hgen hval hok hprobe hle
    rw [upgradeLoop, hgen]
    have h1 : ¬((get_version_info curStr).major = targetMajor) := by omega
    have h2 : ¬(targetMajor < (get_version_info curStr).major) := by omega
    simp [hmem, h1, h2, hval, hok, hprobe, hle]

/-- C1 witness: a concrete two-step run from 14.0 to target 16. -/
theorem run_upgrade_loop_progress_witness :
    upgradeLoop 16 [⟨true, "15.0"⟩, ⟨true, "16.0"⟩] "14.0" [] = .success [14, 15, 16] ∧
      (List.Chain' (fun a b => a < b) [14, 15, 16] ∧
        ∃ lastMajor, [14, 15, 16].getLast? = some lastMajor ∧ 16 ≤ lastMajor) :=
  ⟨by decide,
    run_upgrade_loop_progress.1 16 [⟨true, "15.0"⟩, ⟨true, "16.0"⟩] "14.0" [14, 15, 16]
      (by decide)⟩

/-- C10 (`core.py:750-754` with `core.py:1039-1044`): `get_version_info` is a
total function (any exception is caught); a probe string whose stripped form
does not parse as a version yields `version.parse("0.0")`, whose major `0` is
below the supported floor, so the orchestrator's minimum-version gate rejects
the malformed probe instead of the run crashing. -/
theorem get_version_info_total_on_malformed :
    ∀ s : String, parsePyVersion (pyStrip s) = none →
      get_version_info s = ⟨[0, 0]⟩ ∧
        (get_version_info s).major = 0 ∧
        belowMinimumSupported (get_version_info s) = true := by
  intro s h
  have hv : get_version_info s = ⟨[0, 0]⟩ := by
    unfold get_version_info
    rw [h]
  rw [hv]
  exact ⟨rfl, rfl, by decide⟩

/-- C10 witness: a concrete malformed probe string. -/
theorem get_version_info_total_on_malformed_witness :
    parsePyVersion (pyStrip "corrupted latest_version row") = none ∧
      (get_version_info "corrupted latest_version row" = ⟨[0, 0]⟩ ∧
        (get_version_info "corrupted latest_version row").major = 0 ∧
        belowMinimumSupported (get_version_info "corrupted latest_version row") = true) :=
  ⟨by decide, get_version_info_total_on_malformed "corrupted latest_version row" (by decide)⟩


/-- Iota-reduction of `stateInitialize` on the resume branch. -/
theorem stateInitialize_resume_eq (st : PersistedState) (md : ResumeMetadata) :
    stateInitialize (some st) md true =
      (match validateResumeCompatibility st.metadata md with
        | some msg => .failure msg
        | none => .resumed st) := rfl

/-- `listStartsWith` accepts a block at the front of any extension. -/
theorem listStartsWith_append_self (l t : List Char) : listStartsWith l (l ++ t) = true := by
  induction l with
  | nil => rfl
  | cons a as ih => simp [listStartsWith, ih]

/-- A leading match is in particular a substring occurrence. -/
theorem listHasSub_of_startsWith (needle hay : List Char)
    (h : listStartsWith needle hay = true) : listHasSub needle hay = true := by
  cases hay with
  | nil =>
    cases needle with
    | nil => rfl
    | cons a as => simp [listStartsWith] at h
  | cons b bs => simp [listHasSub, h]

/-- Substring occurrences survive extending the haystack on the left. -/
theorem listHasSub_cons (needle : List Char) (c : Char) (hay : List Char)
    (h : listHasSub needle hay = true) : listHasSub needle (c :: hay) = true := by
  simp [listHasSub, h]

/-- Substring occurrences survive prepending any block. -/
theorem listHasSub_append_left (pre needle hay : List Char)
    (h : listHasSub needle hay = true) : listHasSub needle (pre ++ hay) = true := by
  induction pre with
  | nil => exact h
  | cons c cs ih => exact listHasSub_cons needle c (cs ++ hay) ih

/-- Any explicit decomposition of a string exhibits a substring. -/
theorem containsSub_of_decomp (hay pre needle post : String)
    (h : hay = pre ++ (needle ++ post)) : containsSub hay needle = true := by
  subst h
  unfold containsSub
  simp only [String.data_append]
  exact listHasSub_append_left pre.data needle.data (needle.data ++ post.data)
    (listHasSub_of_startsWith needle.data (needle.data ++ post.data)
      (listStartsWith_append_self needle.data post.data))

/-- The mismatch list is empty exactly when the two metadata agree. -/
theorem metadataMismatches_eq_nil_iff (a b : ResumeMetadata) :
    metadataMismatches a b = [] ↔ a = b := by
  cases a
  cases b
  simp only [metadataMismatches, ResumeMetadata.mk.injEq]
  split_ifs <;> simp_all

/-- C2 amended (`state.py:56-83,134-152`): resuming over an existing state
file fails with the cannot-resume error iff one of the five stored metadata
fields (source, target_version, extra_addons, source_sha256,
extra_addons_sha256) differs from the current metadata; on full agreement the
run resumes — including when the persisted status is already `success` (the
service has no check rejecting an already-successful run). -/
theorem state_initialize_resume_validation :
    ∀ (st : PersistedState) (md : ResumeMetadata),
      ((∃ msg, stateInitialize (some st) md true = .failure msg ∧
          containsSub msg "Cannot resume run with different inputs" = true) ↔
        (st.metadata.source ≠ md.source ∨
          st.metadata.target_version ≠ md.target_version ∨
          st.metadata.extra_addons ≠ md.extra_addons ∨
          st.metadata.source_sha256 ≠ md.source_sha256 ∨
          st.metadata.extra_addons_sha256 ≠ md.extra_addons_sha256)) ∧
      (st.metadata = md → stateInitialize (some st) md true = .resumed st) := by
  intro st md
  constructor
  · constructor
    · rintro ⟨msg, hmsg, -⟩
      by_contra hall
      push_neg at hall
      obtain ⟨h1, h2, h3, h4, h5⟩ := hall
      have heq : st.metadata = md := by
        cases hst : st.metadata
        cases hmd : md
        simp_all [ResumeMetadata.mk.injEq]
      have hnil : metadataMismatches st.metadata md = [] :=
        (metadataMismatches_eq_nil_iff _ _).mpr heq
      rw [stateInitialize_resume_eq] at hmsg
      unfold validateResumeCompatibility at hmsg
      rw [hnil] at hmsg
      simp at hmsg
    · intro hdiff
      have hne : st.metadata ≠ md := by
        intro heq
        rw [heq] at hdiff
        simp at hdiff
      have hnnil : metadataMismatches st.metadata md ≠ [] := by
        intro hnil
        exact hne ((metadataMismatches_eq_nil_iff _ _).mp hnil)
      refine ⟨RESUME_CONFLICT_TEXT ++
        ("Mismatched fields: " ++
          String.intercalate ", " (metadataMismatches st.metadata md) ++ "."), ?_, ?_⟩
      · rw [stateInitialize_resume_eq]
        unfold validateResumeCompatibility
        simp [List.isEmpty_iff, hnnil]
      · refine containsSub_of_decomp _ "" "Cannot resume run with different inputs"
          (". " ++ ("Mismatched fields: " ++
            String.intercalate ", " (metadataMismatches st.metadata md) ++ ".")) ?_
        have h0 : RESUME_CONFLICT_TEXT = "Cannot resume run with different inputs" ++ ". " := by
          decide
        rw [h0, String.append_assoc]
        rfl
  · intro heq
    have hnil : metadataMismatches st.metadata md = [] :=
      (metadataMismatches_eq_nil_iff _ _).mpr heq
    rw [stateInitialize_resume_eq]
    unfold validateResumeCompatibility
    rw [hnil]
    rfl

/-- C2 counterexample: a state whose persisted status is `success` and whose
metadata matches the current inputs is resumed, not rejected, contradicting
the claim that resuming an already-successful run is rejected. -/
theorem state_initialize_successful_resume_counterexample :
    stateInitialize
        (some ⟨"success", ⟨some "db.dump", some "15.0", none, none, none⟩, ["restore_database"]⟩)
        ⟨some "db.dump", some "15.0", none, none, none⟩ true =
      .resumed
        ⟨"success", ⟨some "db.dump", some "15.0", none, none, none⟩, ["restore_database"]⟩ := by
  decide

/-- C2 witness: a concrete metadata mismatch on `source` makes
`initialize` fail with the cannot-resume error. -/
theorem state_initialize_resume_validation_witness :
    ((some "first.dump" : Option String) ≠ some "second.dump" ∨
        (some "15.0" : Option String) ≠ some "15.0" ∨
        (none : Option String) ≠ none ∨
        (none : Option String) ≠ none ∨
        (none : Option String) ≠ none) ∧
      ∃ msg,
        stateInitialize
            (some ⟨"running", ⟨some "first.dump", some "15.0", none, none, none⟩, []⟩)
            ⟨some "second.dump", some "15.0", none, none, none⟩ true = .failure msg ∧
          containsSub msg "Cannot resume run with different inputs" = true :=
  ⟨by decide,
    (state_initialize_resume_validation
        ⟨"running", ⟨some "first.dump", some "15.0", none, none, none⟩, []⟩
        ⟨some "second.dump", some "15.0", none, none, none⟩).1.mpr (by decide)⟩


/-- The empty string occurs in every string. -/
theorem containsSub_empty_needle (hay : String) : containsSub hay "" = true := by
  unfold containsSub
  cases hay.data with
  | nil => rfl
  | cons b bs => simp [listHasSub, listStartsWith]

/-- The failure message carries the command line. -/
theorem cmdFailMessage_contains_cmd (cmdStr : String) (rc : Int) (st : String) :
    containsSub (cmdFailMessage cmdStr rc st) cmdStr = true := by
  unfold cmdFailMessage
  by_cases hst : st = ""
  · rw [if_neg (by simp [hst])]
    refine containsSub_of_decomp _ ("Command failed (" ++ toString rc ++ "): ") cmdStr "" ?_
    rw [String.append_empty]
  · rw [if_pos hst]
    refine containsSub_of_decomp _ ("Command failed (" ++ toString rc ++ "): ") cmdStr
      ("\n" ++ st) ?_
    simp [String.append_assoc]

/-- The failure message carries the exit code. -/
theorem cmdFailMessage_contains_code (cmdStr : String) (rc : Int) (st : String) :
    containsSub (cmdFailMessage cmdStr rc st) (toString rc) = true := by
  unfold cmdFailMessage
  by_cases hst : st = ""
  · rw [if_neg (by simp [hst])]
    refine containsSub_of_decomp _ "Command failed (" (toString rc) ("): " ++ cmdStr) ?_
    simp [String.append_assoc]
  · rw [if_pos hst]
    refine containsSub_of_decomp _ "Command failed (" (toString rc)
      ("): " ++ cmdStr ++ "\n" ++ st) ?_
    simp [String.append_assoc]

/-- The failure message carries the trimmed stderr (vacuously when empty). -/
theorem cmdFailMessage_contains_stderr (cmdStr : String) (rc : Int) (st : String) :
    containsSub (cmdFailMessage cmdStr rc st) st = true := by
  unfold cmdFailMessage
  by_cases hst : st = ""
  · rw [if_neg (by simp [hst])]
    subst hst
    exact containsSub_empty_needle _
  · rw [if_pos hst]
    refine containsSub_of_decomp _ ("Command failed (" ++ toString rc ++ "): " ++ cmdStr ++ "\n")
      st "" ?_
    rw [String.append_empty]

/-- C9 (`command_runner.py:17-94`): a non-zero exit is retried iff attempts
remain and the retry-code set is empty or contains the exit code, appending
one backoff sleep; otherwise, with `check` enabled, the run fails with a
message that contains the command line, the exit code, and the trimmed
stderr. -/
theorem command_runner_retry_policy :
    ∀ (cmd : List String) (check captureOutput : Bool) (retryCodes : List Int)
      (backoff : ℚ) (timeoutDesc : String) (maxAttempts attempt : Nat)
      (returncode : Int) (stdout stderr : String) (rest : List CmdAttempt) (sleeps : List ℚ),
      returncode ≠ 0 →
      ((attempt < maxAttempts ∧ (retryCodes = [] ∨ returncode ∈ retryCodes) →
          commandRun cmd check captureOutput retryCodes backoff timeoutDesc maxAttempts attempt
              (.completed returncode stdout stderr :: rest) sleeps =
            commandRun cmd check captureOutput retryCodes backoff timeoutDesc maxAttempts
              (attempt + 1) rest (sleeps ++ [backoff])) ∧
        (¬(attempt < maxAttempts ∧ (retryCodes = [] ∨ returncode ∈ retryCodes)) → check = true →
          commandRun cmd check captureOutput retryCodes backoff timeoutDesc maxAttempts attempt
              (.completed returncode stdout stderr :: rest) sleeps =
            ⟨.failure (cmdFailMessage (String.intercalate " " cmd) returncode
              (if captureOutput then pyStrip stderr else "")), sleeps⟩) ∧
        (containsSub
            (cmdFailMessage (String.intercalate " " cmd) returncode
              (if captureOutput then pyStrip stderr else ""))
            (String.intercalate " " cmd) = true ∧
          containsSub
            (cmdFailMessage (String.intercalate " " cmd) returncode
              (if captureOutput then pyStrip stderr else ""))
            (toString returncode) = true ∧
          containsSub
            (cmdFailMessage (String.intercalate " " cmd) returncode
              (if captureOutput then pyStrip stderr else ""))
            (if captureOutput then pyStrip stderr else "") = true)) := by
  intro cmd check cap codes backoff td maxA att rc out err rest sleeps hrc
  refine ⟨?_, ?_, ?_, ?_, ?_⟩
  · intro hcond
    rw [commandRun]
    rw [if_neg hrc, if_pos hcond]
  · intro hcond hcheck
    rw [commandRun]
    rw [if_neg hrc, if_neg hcond, if_pos hcheck]
  · exact cmdFailMessage_contains_cmd _ _ _
  · exact cmdFailMessage_contains_code _ _ _
  · exact cmdFailMessage_contains_stderr _ _ _

/-- C9 witness: final attempt with exit code 1 and no retry codes fails with
the composed message. -/
theorem command_runner_retry_policy_witness :
    ((1 : Int) ≠ 0 ∧
        ¬((2 : Nat) < 2 ∧ (([] : List Int) = [] ∨ (1 : Int) ∈ ([] : List Int))) ∧
        true = true) ∧
      commandRun ["pg_isready"] true true [] 2 "None" 2 2
          [.completed 1 "" " connection refused "] [] =
        ⟨.failure (cmdFailMessage "pg_isready" 1 "connection refused"), []⟩ :=
  ⟨⟨by decide, by decide, rfl⟩, by
    have h :=
      (command_runner_retry_policy ["pg_isready"] true true [] 2 "None" 2 2 1 ""
          " connection refused " [] [] (by decide)).2.1 (by decide) rfl
    rw [h]
    decide⟩


/-- Reduction of `downloadFileStream` at a supplied checksum. -/
theorem downloadFileStream_some_eq (hashFn : List Nat → String) (description : String)
    (chunks : List (List Nat)) (expected : String) :
    downloadFileStream hashFn description chunks (some expected) =
      (if hashFn ((chunks.filter (fun c => c ≠ [])).flatten) ≠ expected then
        ⟨none, some ("Checksum mismatch for " ++ description ++ ". Expected " ++ expected ++
          ", but got " ++ hashFn ((chunks.filter (fun c => c ≠ [])).flatten) ++ ".")⟩
      else ⟨some ((chunks.filter (fun c => c ≠ [])).flatten), none⟩) := rfl

/-- C7 (`download.py:30-81`): when an expected SHA-256 is supplied and
`download_file` returns without error, the digest of the bytes written at the
destination equals the expected checksum; on a digest mismatch the destination
file is removed (`destContent = none`) and the call fails with the
checksum-mismatch error. -/
theorem download_checksum_law :
    ∀ (hashFn : List Nat → String) (description : String) (chunks : List (List Nat))
      (expected : String),
      ((downloadFileStream hashFn description chunks (some expected)).errorMsg = none →
        ∃ content,
          (downloadFileStream hashFn description chunks (some expected)).destContent =
              some content ∧
            hashFn content = expected) ∧
      (hashFn ((chunks.filter (fun c => c ≠ [])).flatten) ≠ expected →
        downloadFileStream hashFn description chunks (some expected) =
          ⟨none, some ("Checksum mismatch for " ++ description ++ ". Expected " ++ expected ++
            ", but got " ++ hashFn ((chunks.filter (fun c => c ≠ [])).flatten) ++ ".")⟩) := by
  intro hashFn description chunks expected
  constructor
  · intro herr
    rw [downloadFileStream_some_eq] at herr ⊢
    by_cases h : hashFn ((chunks.filter (fun c => c ≠ [])).flatten) ≠ expected
    · rw [if_pos h] at herr
      simp at herr
    · rw [if_neg h]
      push_neg at h
      exact ⟨(chunks.filter (fun c => c ≠ [])).flatten, rfl, h⟩
  · intro h
    rw [downloadFileStream_some_eq, if_pos h]

/-- C7 witness: a concrete digest function and chunk stream. -/
theorem download_checksum_law_witness :
    (downloadFileStream (fun bytes => if bytes = [1, 2, 3] then "0a" else "ff") "source DB"
          [[1, 2], [], [3]] (some "0a")).errorMsg = none ∧
      ∃ content,
        (downloadFileStream (fun bytes => if bytes = [1, 2, 3] then "0a" else "ff") "source DB"
              [[1, 2], [], [3]] (some "0a")).destContent = some content ∧
          (fun bytes => if bytes = [1, 2, 3] then "0a" else "ff") content = "0a" :=
  ⟨rfl,
    (download_checksum_law (fun bytes => if bytes = [1, 2, 3] then "0a" else "ff") "source DB"
        [[1, 2], [], [3]] "0a").1 rfl⟩

/-- C8 evaluation at the failing input of
`test_download.py::test_download_service_retries_transient_request_errors`:
the first transfer raises a transient `RequestException`, a successful
response is available next, yet `download_file` fails immediately after one
transfer — the service has no retry loop. -/
theorem download_no_retry_on_transient :
    downloadFile (fun _ => "") "source"
        [.requestFailure "temporary download error", .streamed [[1]]] none =
      (⟨none, some "Download failed for source: temporary download error"⟩, 1) := rfl


/-- A single unsafe entry anywhere in the list makes the audit raise. -/
theorem auditEntries_some_of_unsafe :
    ∀ (base : List String) (entries : List ZipEntry),
      (∃ e ∈ entries,
          isWithinDir base (resolveUnder base e.filename) = false ∨ isSymlinkEntry e = true) →
      ∃ msg, auditEntries base entries = some msg := by
  intro base entries
  induction entries with
  | nil => rintro ⟨e, he, -⟩; cases he
  | cons e rest ih =>
    rintro ⟨f, hf, hbad⟩
    rw [auditEntries]
    by_cases hw : isWithinDir base (resolveUnder base e.filename)
    · rw [if_neg (by simp [hw])]
      by_cases hs : isSymlinkEntry e
      · rw [if_pos hs]
        exact ⟨_, rfl⟩
      · rw [if_neg hs]
        rcases List.mem_cons.mp hf with rfl | hf'
        · rcases hbad with hbad | hbad
          · rw [hw] at hbad
            cases hbad
          · exact absurd hbad hs
        · exact ih ⟨f, hf', hbad⟩
    · rw [if_pos (by simp [hw])]
      exact ⟨_, rfl⟩

/-- C6 (`archive.py:20-53`, `core.py:242-276`): whenever some entry resolves
outside the destination directory or is declared a symbolic link,
`safe_extract_zip` raises an `UpgraderError` and performs no filesystem
action — the audit pass precedes all writes, so a rejected archive leaves the
destination untouched. -/
theorem safe_extract_zip_rejects_unsafe :
    ∀ (base : List String) (entries : List ZipEntry),
      (∃ e ∈ entries,
          isWithinDir base (resolveUnder base e.filename) = false ∨ isSymlinkEntry e = true) →
      ∃ msg, safeExtractZip base entries = (some msg, []) := by
  intro base entries hbad
  obtain ⟨msg, hmsg⟩ := auditEntries_some_of_unsafe base entries hbad
  refine ⟨msg, ?_⟩
  unfold safeExtractZip
  rw [hmsg]

/-- C6 witness: a traversal entry `../../evil.sh` aborts extraction. -/
theorem safe_extract_zip_rejects_unsafe_witness :
    (∃ e ∈ [ZipEntry.mk "../../evil.sh" 0, ZipEntry.mk "module/ok.py" 0],
        isWithinDir ["home", "user", "workspace", "output"]
            (resolveUnder ["home", "user", "workspace", "output"] e.filename) = false ∨
          isSymlinkEntry e = true) ∧
      ∃ msg,
        safeExtractZip ["home", "user", "workspace", "output"]
            [ZipEntry.mk "../../evil.sh" 0, ZipEntry.mk "module/ok.py" 0] = (some msg, []) :=
  ⟨by decide,
    safe_extract_zip_rejects_unsafe ["home", "user", "workspace", "output"]
      [ZipEntry.mk "../../evil.sh" 0, ZipEntry.mk "module/ok.py" 0] (by decide)⟩


/-- A leading match only uses characters of the haystack. -/
theorem listStartsWith_mem (n : List Char) :
    ∀ h : List Char, listStartsWith n h = true → ∀ c ∈ n, c ∈ h := by
  induction n with
  | nil => intro h _ c hc; cases hc
  | cons a as ih =>
    intro h hsw c hc
    cases h with
    | nil => simp [listStartsWith] at hsw
    | cons b bs =>
      simp only [listStartsWith, Bool.and_eq_true, decide_eq_true_eq] at hsw
      rcases List.mem_cons.mp hc with rfl | hc'
      · simp [hsw.1]
      · exact List.mem_cons_of_mem b (ih bs hsw.2 c hc')

/-- Characters of a matched substring occur in the haystack. -/
theorem listHasSub_mem (n : List Char) :
    ∀ h : List Char, listHasSub n h = true → ∀ c ∈ n, c ∈ h := by
  intro h
  induction h with
  | nil =>
    intro hsub c hc
    cases n with
    | nil => cases hc
    | cons a as => simp [listHasSub, List.isEmpty] at hsub
  | cons b bs ih =>
    intro hsub c hc
    rw [listHasSub, Bool.or_eq_true] at hsub
    rcases hsub with hsw | hrec
    · exact listStartsWith_mem n (b :: bs) hsw c hc
    · exact List.mem_cons_of_mem b (ih hrec c hc)

/-- A list whose Python strip is empty is all whitespace. -/
theorem pyStripList_nil_all_space (l : List Char) (h : pyStripList l = []) :
    ∀ c ∈ l, pyIsSpace c = true := by
  unfold pyStripList at h
  rw [List.reverse_eq_nil_iff, List.dropWhile_eq_nil_iff] at h
  intro c hc
  rw [← List.takeWhile_append_dropWhile (p := pyIsSpace) (l := l)] at hc
  rcases List.mem_append.mp hc with hc' | hc'
  · exact List.mem_takeWhile_imp hc'
  · exact h c (List.mem_reverse.mpr hc')

/-- Every configured transient pattern carries a non-whitespace character. -/
theorem transient_patterns_have_nonspace :
    ∀ p ∈ TRANSIENT_FAILURE_PATTERNS, ∃ c ∈ p.data, pyIsSpace c = false := by
  decide

/-- The classifier decides exactly: some transient pattern occurs in the
lowered evidence and no fatal pattern does. -/
theorem is_transient_failure_characterization :
    ∀ evidence : String,
      isTransientFailure evidence = true ↔
        ((∃ p ∈ TRANSIENT_FAILURE_PATTERNS, containsSub (pyLower evidence) p = true) ∧
          ∀ p ∈ NON_RETRYABLE_FAILURE_PATTERNS, containsSub (pyLower evidence) p = false) := by
  intro evidence
  unfold isTransientFailure
  by_cases hstrip : pyStrip (pyLower evidence) = ""
  · rw [if_pos hstrip]
    refine iff_of_false (by simp) ?_
    rintro ⟨⟨p, hp, hcontains⟩, -⟩
    obtain ⟨c, hcp, hcspace⟩ := transient_patterns_have_nonspace p hp
    have hl : pyStripList (pyLower evidence).data = [] := congrArg String.data hstrip
    have hall := pyStripList_nil_all_space (pyLower evidence).data hl
    have hcmem : c ∈ (pyLower evidence).data :=
      listHasSub_mem p.data (pyLower evidence).data hcontains c hcp
    rw [hall c hcmem] at hcspace
    cases hcspace
  · rw [if_neg hstrip]
    by_cases hfatal :
        NON_RETRYABLE_FAILURE_PATTERNS.any (fun p => containsSub (pyLower evidence) p) = true
    · rw [if_pos hfatal]
      refine iff_of_false (by simp) ?_
      rintro ⟨-, hforall⟩
      rw [List.any_eq_true] at hfatal
      obtain ⟨p, hp, hc⟩ := hfatal
      rw [hforall p hp] at hc
      cases hc
    · rw [if_neg hfatal]
      rw [Bool.not_eq_true, List.any_eq_false] at hfatal
      constructor
      · intro hany
        rw [List.any_eq_true] at hany
        refine ⟨hany, fun p hp => ?_⟩
        have := hfatal p hp
        simpa using this
      · rintro ⟨⟨p, hp, hc⟩, -⟩
        rw [List.any_eq_true]
        exact ⟨p, hp, hc⟩

/-- C4 (`database.py:41-85`): for any dump and nonempty list of (stripped,
nonempty) unsupported parameter names, the compatibility dump holds exactly
the input lines, in order, minus those matching `SET <param> =` or
`SELECT pg_catalog.set_config('<param>',` case-insensitively after optional
leading whitespace; when no line matches any parameter the function raises
instead of producing an unchanged copy. -/
theorem create_sql_compat_dump_filters :
    ∀ (lines params : List String),
      params ≠ [] →
      (∀ p ∈ params, pyStrip p = p ∧ p ≠ "") →
      (lines.any (fun l => shouldSkipLine l params) = true →
        createSqlCompatDump lines params =
          .ok (lines.filter (fun l => ¬shouldSkipLine l params))) ∧
      (lines.any (fun l => shouldSkipLine l params) = false →
        ∃ msg, createSqlCompatDump lines params = .failure msg) := by
  intro lines params hne hclean
  have hmap : params.map pyStrip = params := by
    have h1 : params.map pyStrip = params.map id :=
      List.map_congr_left (fun p hp => (hclean p hp).1)
    simpa using h1
  have hfilter : params.filter (fun p => p ≠ "") = params := by
    rw [List.filter_eq_self]
    intro p hp
    simpa using (hclean p hp).2
  have hset : (params.map pyStrip).filter (fun p => p ≠ "") = params := by
    rw [hmap, hfilter]
  have hempty : ¬(params.isEmpty = true) := by
    cases params with
    | nil => exact absurd rfl hne
    | cons a as => simp
  constructor
  · intro hany
    have hcount : ¬(lines.countP (fun l => shouldSkipLine l params) = 0) := by
      intro h0
      rw [List.countP_eq_zero] at h0
      rw [List.any_eq_true] at hany
      obtain ⟨l, hl, hskip⟩ := hany
      exact h0 l hl hskip
    simp only [createSqlCompatDump]
    rw [hset]
    rw [if_neg hempty, if_neg hcount]
  · intro hany
    have hcount : lines.countP (fun l => shouldSkipLine l params) = 0 := by
      rw [List.countP_eq_zero]
      intro l hl hskip
      rw [List.any_eq_false] at hany
      exact hany l hl hskip
    simp only [createSqlCompatDump]
    rw [hset]
    rw [if_neg hempty, if_pos hcount]
    exact ⟨_, rfl⟩

/-- C4 witness: the compatibility-rewrite scenario of the spec, removing a
`SET transaction_timeout` line and keeping everything else. -/
theorem create_sql_compat_dump_filters_witness :
    ((["transaction_timeout"] : List String) ≠ [] ∧
        (∀ p ∈ (["transaction_timeout"] : List String), pyStrip p = p ∧ p ≠ "") ∧
        (["SET transaction_timeout = 0;", "CREATE TABLE t (a int);"].any
            (fun l => shouldSkipLine l ["transaction_timeout"]) = true)) ∧
      createSqlCompatDump ["SET transaction_timeout = 0;", "CREATE TABLE t (a int);"]
          ["transaction_timeout"] =
        .ok ["CREATE TABLE t (a int);"] := by
  refine ⟨⟨by decide, by decide, by decide⟩, ?_⟩
  have h :=
    (create_sql_compat_dump_filters ["SET transaction_timeout = 0;", "CREATE TABLE t (a int);"]
        ["transaction_timeout"] (by decide) (by decide)).1 (by decide)
  rw [h]
  decide



/-- C3 (`upgrade_step.py:128-136,354-393`): a failed migration-step attempt
is retried iff attempts remain and the combined evidence (40-line tail plus
the odoo.log delta from the attempt's start offset) contains at least one
configured transient pattern and none of the configured fatal patterns; when
that classification fails the step returns failure immediately, without
consuming further attempts. -/
theorem upgrade_step_retry_classification :
    (∀ evidence : String,
        isTransientFailure evidence = true ↔
          ((∃ p ∈ TRANSIENT_FAILURE_PATTERNS, containsSub (pyLower evidence) p = true) ∧
            ∀ p ∈ NON_RETRYABLE_FAILURE_PATTERNS, containsSub (pyLower evidence) p = false)) ∧
    (∀ (maxAttempts attempt : Nat) (tailLines : List String) (logDelta : String)
        (rest : List AttemptResult),
        attempt < maxAttempts →
        isTransientFailure (stepEvidence tailLines logDelta) = true →
        runStepAttempts maxAttempts attempt (.exitNonZero tailLines logDelta :: rest) =
          runStepAttempts maxAttempts (attempt + 1) rest) ∧
    (∀ (maxAttempts attempt : Nat) (tailLines : List String) (logDelta : String)
        (rest : List AttemptResult),
        ¬(attempt < maxAttempts ∧
            isTransientFailure (stepEvidence tailLines logDelta) = true) →
        runStepAttempts maxAttempts attempt (.exitNonZero tailLines logDelta :: rest) =
          false) := by
  refine ⟨is_transient_failure_characterization, ?_, ?_⟩
  · intro maxAttempts attempt tailLines logDelta rest h1 h2
    rw [runStepAttempts]
    rw [if_pos ⟨h1, h2⟩]
  · intro maxAttempts attempt tailLines logDelta rest h
    rw [runStepAttempts]
    rw [if_neg h]

/-- C3 witness: a connection-reset failure on attempt 1 of 2 retries. -/
theorem upgrade_step_retry_classification_witness :
    ((1 : Nat) < 2 ∧
        isTransientFailure
            (stepEvidence ["ERROR: Connection reset by peer", "retrying"] "") = true) ∧
      runStepAttempts 2 1
          [.exitNonZero ["ERROR: Connection reset by peer", "retrying"] ""] =
        runStepAttempts 2 2 [] :=
  ⟨⟨by decide, by decide⟩,
    upgrade_step_retry_classification.2.1 2 1 ["ERROR: Connection reset by peer", "retrying"]
      "" [] (by decide) (by decide)⟩


/-- The dedup fold preserves and establishes `Nodup`. -/
theorem dedupKeepOrder_aux (l : List String) :
    ∀ acc : List String, acc.Nodup →
      (l.foldl (fun acc p => if p ∈ acc then acc else acc ++ [p]) acc).Nodup := by
  induction l with
  | nil => intro acc h; exact h
  | cons a as ih =>
    intro acc h
    rw [List.foldl_cons]
    by_cases hmem : a ∈ acc
    · rw [if_pos hmem]; exact ih acc h
    · rw [if_neg hmem]
      refine ih (acc ++ [a]) ?_
      rw [List.nodup_append]
      refine ⟨h, by simp, ?_⟩
      intro x hx hxa
      rw [List.mem_singleton] at hxa
      subst hxa
      exact hmem hx

theorem dedupKeepOrder_nodup (l : List String) : (dedupKeepOrder l).Nodup :=
  dedupKeepOrder_aux l [] List.nodup_nil

theorem extractUnsupportedParameters_nodup (s : String) :
    (extractUnsupportedParameters s).Nodup :=
  dedupKeepOrder_nodup _

/-- At most `6 - passNumber` restore executions remain from pass
`passNumber`. -/
theorem restoreSqlLoop_psqlRuns_le :
    ∀ (results : List PsqlResult) (command : String) (passNumber : Nat)
      (lines attempted : List String),
      passNumber ≤ SQL_COMPAT_MAX_PASSES →
      (restoreSqlLoop command passNumber results lines attempted).psqlRuns ≤
        SQL_COMPAT_MAX_PASSES + 1 - passNumber := by
  intro results
  induction results with
  | nil =>
    intro command passNumber lines attempted hle
    rw [restoreSqlLoop]
    simp
  | cons r rest ih =>
    intro command passNumber lines attempted hle
    rw [restoreSqlLoop]
    by_cases hrc : r.returncode = 0
    · rw [if_pos hrc]
      show 1 ≤ SQL_COMPAT_MAX_PASSES + 1 - passNumber
      unfold SQL_COMPAT_MAX_PASSES at hle ⊢
      omega
    · rw [if_neg hrc]
      by_cases hcond :
          (extractUnsupportedParameters (pyStrip r.stderr)).filter
              (fun p => p ∉ attempted) ≠ [] ∧
            passNumber < SQL_COMPAT_MAX_PASSES
      · rw [if_pos hcond]
        cases hdump : createSqlCompatDump lines
            ((extractUnsupportedParameters (pyStrip r.stderr)).filter
              (fun p => p ∉ attempted)) with
        | failure m =>
          show 1 ≤ SQL_COMPAT_MAX_PASSES + 1 - passNumber
          unfold SQL_COMPAT_MAX_PASSES at hle ⊢
          omega
        | ok newLines =>
          have hrec := ih command (passNumber + 1) newLines
            (attempted ++ (extractUnsupportedParameters (pyStrip r.stderr)).filter
              (fun p => p ∉ attempted)) (by unfold SQL_COMPAT_MAX_PASSES at hcond ⊢; omega)
          show (restoreSqlLoop command (passNumber + 1) rest newLines _).psqlRuns + 1 ≤ _
          unfold SQL_COMPAT_MAX_PASSES at hrec hcond ⊢
          omega
      · rw [if_neg hcond]
        show 1 ≤ SQL_COMPAT_MAX_PASSES + 1 - passNumber
        unfold SQL_COMPAT_MAX_PASSES at hle ⊢
        omega

/-- Every generated compatibility dump uses only parameters extracted from
that pass's stderr, never one already attempted; across passes the stripped
parameter groups are mutually disjoint. -/
theorem restoreSqlLoop_trace_aux :
    ∀ (results : List PsqlResult) (command : String) (passNumber : Nat)
      (lines attempted : List String),
      attempted.Nodup →
      (∀ e ∈ (restoreSqlLoop command passNumber results lines attempted).compatPasses,
          (∀ p ∈ e.2, p ∈ extractUnsupportedParameters e.1) ∧ ∀ p ∈ e.2, p ∉ attempted) ∧
        (attempted ++
            ((restoreSqlLoop command passNumber results lines attempted).compatPasses.map
              Prod.snd).flatten).Nodup := by
  intro results
  induction results with
  | nil =>
    intro command passNumber lines attempted hA
    rw [restoreSqlLoop]
    exact ⟨by simp, by simpa using hA⟩
  | cons r rest ih =>
    intro command passNumber lines attempted hA
    rw [restoreSqlLoop]
    by_cases hrc : r.returncode = 0
    · rw [if_pos hrc]
      exact ⟨by simp, by simpa using hA⟩
    · rw [if_neg hrc]
      by_cases hcond :
          (extractUnsupportedParameters (pyStrip r.stderr)).filter
              (fun p => p ∉ attempted) ≠ [] ∧
            passNumber < SQL_COMPAT_MAX_PASSES
      · rw [if_pos hcond]
        cases hdump : createSqlCompatDump lines
            ((extractUnsupportedParameters (pyStrip r.stderr)).filter
              (fun p => p ∉ attempted)) with
        | failure m => exact ⟨by simp, by simpa using hA⟩
        | ok newLines =>
          have hnewsub :
              ∀ p ∈ (extractUnsupportedParameters (pyStrip r.stderr)).filter
                (fun p => p ∉ attempted),
                p ∈ extractUnsupportedParameters (pyStrip r.stderr) := by
            intro p hp
            exact (List.mem_filter.mp hp).1
          have hnewnot :
              ∀ p ∈ (extractUnsupportedParameters (pyStrip r.stderr)).filter
                (fun p => p ∉ attempted),
                p ∉ attempted := by
            intro p hp
            have h2 := (List.mem_filter.mp hp).2
            simpa using h2
          have hnewnodup :
              ((extractUnsupportedParameters (pyStrip r.stderr)).filter
                (fun p => p ∉ attempted)).Nodup :=
            (extractUnsupportedParameters_nodup _).filter _
          have hA' :
              (attempted ++
                (extractUnsupportedParameters (pyStrip r.stderr)).filter
                  (fun p => p ∉ attempted)).Nodup := by
            rw [List.nodup_append]
            exact ⟨hA, hnewnodup, fun x hx hxnew => hnewnot x hxnew hx⟩
          obtain ⟨ihsub, ihnodup⟩ := ih command (passNumber + 1) newLines
            (attempted ++
              (extractUnsupportedParameters (pyStrip r.stderr)).filter
                (fun p => p ∉ attempted)) hA'
          constructor
          · intro e he
            rcases List.mem_cons.mp he with rfl | he'
            · exact ⟨hnewsub, hnewnot⟩
            · obtain ⟨hs, hn⟩ := ihsub e he'
              exact ⟨hs, fun p hp hmem => hn p hp (List.mem_append_left _ hmem)⟩
          · have hres := ihnodup
            rw [List.append_assoc] at hres
            exact hres
      · rw [if_neg hcond]
        exact ⟨by simp, by simpa using hA⟩

/-- A failing pass with no new removable parameters raises the enriched
command error immediately. -/
theorem restoreSqlLoop_fails_without_new_params :
    ∀ (command : String) (passNumber : Nat) (r : PsqlResult) (rest : List PsqlResult)
      (lines attempted : List String),
      r.returncode ≠ 0 →
      (extractUnsupportedParameters (pyStrip r.stderr)).filter (fun p => p ∉ attempted) = [] →
      restoreSqlLoop command passNumber (r :: rest) lines attempted =
        ⟨.failed (mkRestoreFailMessage command r.returncode (pyStrip r.stderr)
          (extractUnsupportedParameters (pyStrip r.stderr))), [], 1⟩ := by
  intro command passNumber r rest lines attempted hrc hnew
  have hcondfalse :
      ¬((extractUnsupportedParameters (pyStrip r.stderr)).filter
          (fun p => p ∉ attempted) ≠ [] ∧ passNumber < SQL_COMPAT_MAX_PASSES) := by
    rintro ⟨hne2, -⟩
    exact hne2 hnew
  rw [restoreSqlLoop, if_neg hrc, if_neg hcondfalse]

/-- Zeta/iota normal form of `mkRestoreFailMessage`. -/
theorem mkRestoreFailMessage_eq (command : String) (rc : Int) (so : String)
    (u : List String) :
    mkRestoreFailMessage command rc so u =
      (if u ≠ [] then
        (if so ≠ "" then
          "Command failed (" ++ toString rc ++ "): " ++ command ++ "\n" ++ so
        else "Command failed (" ++ toString rc ++ "): " ++ command) ++
          "\nDetected unsupported PostgreSQL settings in SQL dump: " ++
          String.intercalate ", " (pySortedSet u) ++ POSTGRES_SUGGESTION
      else
        (if so ≠ "" then
          "Command failed (" ++ toString rc ++ "): " ++ command ++ "\n" ++ so
        else "Command failed (" ++ toString rc ++ "): " ++ command)) := rfl

/-- When parameters were detected, the failure message carries the
engine-version suggestion, the sorted parameter list, and the command. -/
theorem mkRestoreFailMessage_enriched :
    ∀ (command : String) (returncode : Int) (stderrOutput : String)
      (unsupported : List String),
      unsupported ≠ [] →
      containsSub (mkRestoreFailMessage command returncode stderrOutput unsupported)
          POSTGRES_SUGGESTION = true ∧
        containsSub (mkRestoreFailMessage command returncode stderrOutput unsupported)
          (String.intercalate ", " (pySortedSet unsupported)) = true ∧
        containsSub (mkRestoreFailMessage command returncode stderrOutput unsupported)
          command = true := by
  intro command rc so u hne
  rw [mkRestoreFailMessage_eq, if_pos hne]
  by_cases hso : so = ""
  · rw [if_neg (by simp [hso])]
    refine ⟨?_, ?_, ?_⟩
    · refine containsSub_of_decomp _
        ("Command failed (" ++ toString rc ++ "): " ++ command ++
          "\nDetected unsupported PostgreSQL settings in SQL dump: " ++
          String.intercalate ", " (pySortedSet u)) POSTGRES_SUGGESTION "" ?_
      rw [String.append_empty]
    · refine containsSub_of_decomp _
        ("Command failed (" ++ toString rc ++ "): " ++ command ++
          "\nDetected unsupported PostgreSQL settings in SQL dump: ")
        (String.intercalate ", " (pySortedSet u)) POSTGRES_SUGGESTION ?_
      simp [String.append_assoc]
    · refine containsSub_of_decomp _
        ("Command failed (" ++ toString rc ++ "): ") command
        ("\nDetected unsupported PostgreSQL settings in SQL dump: " ++
          String.intercalate ", " (pySortedSet u) ++ POSTGRES_SUGGESTION) ?_
      simp [String.append_assoc]
  · rw [if_pos hso]
    refine ⟨?_, ?_, ?_⟩
    · refine containsSub_of_decomp _
        ("Command failed (" ++ toString rc ++ "): " ++ command ++ "\n" ++ so ++
          "\nDetected unsupported PostgreSQL settings in SQL dump: " ++
          String.intercalate ", " (pySortedSet u)) POSTGRES_SUGGESTION "" ?_
      rw [String.append_empty]
    · refine containsSub_of_decomp _
        ("Command failed (" ++ toString rc ++ "): " ++ command ++ "\n" ++ so ++
          "\nDetected unsupported PostgreSQL settings in SQL dump: ")
        (String.intercalate ", " (pySortedSet u)) POSTGRES_SUGGESTION ?_
      simp [String.append_assoc]
    · refine containsSub_of_decomp _
        ("Command failed (" ++ toString rc ++ "): ") command
        ("\n" ++ so ++ "\nDetected unsupported PostgreSQL settings in SQL dump: " ++
          String.intercalate ", " (pySortedSet u) ++ POSTGRES_SUGGESTION) ?_
      simp [String.append_assoc]

/-- C5 (`database.py:87-158`): the archive-path SQL restore performs at most
5 compatibility passes; each generated compatibility dump strips only
parameters newly observed in that pass's stderr (never one attempted
earlier — the per-pass parameter groups are pairwise disjoint); and when a
failing restore yields no new removable parameters the operation fails with
the original command error enriched with the detected parameter list and the
newer-engine suggestion. -/
theorem restore_sql_compat_policy :
    (∀ (command : String) (results : List PsqlResult) (lines : List String),
        (restoreSqlDumpWithCompat command results lines).psqlRuns ≤ SQL_COMPAT_MAX_PASSES) ∧
    (∀ (command : String) (results : List PsqlResult) (lines : List String),
        (∀ e ∈ (restoreSqlDumpWithCompat command results lines).compatPasses,
            ∀ p ∈ e.2, p ∈ extractUnsupportedParameters e.1) ∧
          (((restoreSqlDumpWithCompat command results lines).compatPasses.map
              Prod.snd).flatten).Nodup) ∧
    (∀ (command : String) (passNumber : Nat) (r : PsqlResult) (rest : List PsqlResult)
        (lines attempted : List String),
        r.returncode ≠ 0 →
        (extractUnsupportedParameters (pyStrip r.stderr)).filter (fun p => p ∉ attempted) =
          [] →
        restoreSqlLoop command passNumber (r :: rest) lines attempted =
          ⟨.failed (mkRestoreFailMessage command r.returncode (pyStrip r.stderr)
            (extractUnsupportedParameters (pyStrip r.stderr))), [], 1⟩) ∧
    (∀ (command : String) (returncode : Int) (stderrOutput : String)
        (unsupported : List String),
        unsupported ≠ [] →
        containsSub (mkRestoreFailMessage command returncode stderrOutput unsupported)
            POSTGRES_SUGGESTION = true ∧
          containsSub (mkRestoreFailMessage command returncode stderrOutput unsupported)
            (String.intercalate ", " (pySortedSet unsupported)) = true ∧
          containsSub (mkRestoreFailMessage command returncode stderrOutput unsupported)
            command = true) := by
  refine ⟨?_, ?_, restoreSqlLoop_fails_without_new_params, mkRestoreFailMessage_enriched⟩
  · intro command results lines
    have h := restoreSqlLoop_psqlRuns_le results command 1 lines []
      (by unfold SQL_COMPAT_MAX_PASSES; omega)
    simpa [restoreSqlDumpWithCompat] using h
  · intro command results lines
    obtain ⟨hsub, hnodup⟩ := restoreSqlLoop_trace_aux results command 1 lines []
      List.nodup_nil
    refine ⟨?_, ?_⟩
    · intro e he p hp
      exact ((hsub e he).1) p hp
    · simpa using hnodup

/-- C5 witness: a second pass re-observing an already-attempted parameter
fails with the enriched message. -/
theorem restore_sql_compat_policy_witness :
    ((3 : Int) ≠ 0 ∧
        (extractUnsupportedParameters
            (pyStrip " unrecognized configuration parameter \"transaction_timeout\"")).filter
          (fun p => p ∉ ["transaction_timeout"]) = []) ∧
      restoreSqlLoop "psql -f /tmp/dump.sql" 2
          [⟨3, " unrecognized configuration parameter \"transaction_timeout\""⟩]
          ["CREATE TABLE t (a int);"] ["transaction_timeout"] =
        ⟨.failed (mkRestoreFailMessage "psql -f /tmp/dump.sql" 3
          (pyStrip " unrecognized configuration parameter \"transaction_timeout\"")
          (extractUnsupportedParameters
            (pyStrip " unrecognized configuration parameter \"transaction_timeout\""))),
          [], 1⟩ :=
  ⟨⟨by decide, by decide⟩,
    restore_sql_compat_policy.2.2.1 "psql -f /tmp/dump.sql" 2
      ⟨3, " unrecognized configuration parameter \"transaction_timeout\""⟩ []
      ["CREATE TABLE t (a int);"] ["transaction_timeout"] (by decide) (by decide)⟩

end OdooUpgrader
